import Mathlib

/-!
Shallow embedding of the trigger-detection and alarm-lifecycle engine of the
signal-scribe repository.

Embedded sources:
- `src/src/hooks/useRingManager.ts` (ring lifecycle state machine, dedup
  registry, interval effect, dismiss handler);
- `src/src/utils/wakeLockUtils.ts` (wake controller acquire/release);
- `src/src/hooks/useSignalTracker.ts` (background keep-alive effect).

The hook's asynchronous `triggerRing` has two suspension points
(`await requestWakeLock()` at line 38 and `await playCustomRingtone(...)` at
line 47).  We model it as a small-step system: an interval tick runs the
synchronous prefix of `triggerRing` and leaves a pending continuation; separate
events deliver the wake-lock resolution and the audio resolution, running the
corresponding continuation segment exactly as the source orders its statements.
React state setters are modelled as immediate field updates (the hook's effect
lists every read state value in its dependency array, so the interval closure
always sees the latest values).  Ghost fields (`triggerRingCalls`,
`acquiredLocks`, `releasedLocks`, `pausedAudio`, `closedContexts`,
`signalTriggeredCallbacks`) record observable actions without influencing the
control flow.
-/

/-- A signal record (`asset`, `direction`, `timestamp`); timestamps are
epoch-seconds, per the data model. -/
structure Signal where
  asset : String
  direction : String
  timestamp : Nat
deriving DecidableEq, Repr

/-- `useRingManager.ts` line 25: `` `${signal.asset}-${signal.direction}-${signal.timestamp}` ``. -/
def getSignalId (signal : Signal) : String :=
  signal.asset ++ "-" ++ signal.direction ++ "-" ++ toString signal.timestamp

/-- Modelled from the spec: `checkSignalTime` lives in
`src/utils/signalUtils.ts`, which is not part of this repository snapshot.
Spec section 4.1 fixes its policy: fire iff
`now >= timestamp - antidelaySeconds` and
`now < timestamp - antidelaySeconds + evaluationWindow` with a 1-second
evaluation window.  `now` is the clock value the callback observes (the source
reads the clock internally); natural subtraction truncates at zero, matching
the "antidelay larger than time-until-trigger yields immediate eligibility"
edge case. -/
def checkSignalTime (signal : Signal) (antidelaySeconds : Nat) (now : Nat) : Bool :=
  decide (signal.timestamp - antidelaySeconds ≤ now) &&
    decide (now < signal.timestamp - antidelaySeconds + 1)

/-- Modelled from the spec: the resolution of `playCustomRingtone`
(`src/utils/audioUtils.ts` is not part of this repository snapshot).  Per
spec sections 4.4 and 7(c), it either resolves with a playable media handle
(custom ringtone; the caller pushes it into `audioInstancesRef`, line 48-50),
or plays the default beep through a Web Audio context that the callee itself
appends to the shared `audioContextsRef` it receives, or hits a resource
error that is caught and logged inside (taxonomy (c): never fatal), resolving
with no handle. -/
inductive AudioResult
  | htmlAudio (handle : Nat)
  | ctxAudio (ctx : Nat)
  | failed
deriving DecidableEq, Repr

/-- A `triggerRing` invocation suspended at one of its two `await`s. -/
inductive Pending
  | awaitingWakeLock (signal : Signal)
  | awaitingAudio (signal : Signal)
deriving DecidableEq, Repr

/-- The state owned by one `useRingManager` instance, plus ghost observation
fields.  `savedSignals` and `antidelaySeconds` are the hook's props (fixed
within one list membership; the antidelay value can be reconfigured). -/
structure RingState where
  isRinging : Bool
  currentRingingSignal : Option Signal
  wakeLock : Option Nat
  alreadyRangIds : List String
  audioInstances : List Nat
  audioContexts : List Nat
  savedSignals : List Signal
  antidelaySeconds : Nat
  pending : List Pending
  triggerRingCalls : List String
  acquiredLocks : List Nat
  releasedLocks : List Nat
  pausedAudio : List Nat
  closedContexts : List Nat
  signalTriggeredCallbacks : List Signal
deriving DecidableEq, Repr

/-- The hook's initial state: nothing ringing, empty registry, no resources. -/
def initialState (signals : List Signal) (antidelay : Nat) : RingState :=
  { isRinging := false
    currentRingingSignal := none
    wakeLock := none
    alreadyRangIds := []
    audioInstances := []
    audioContexts := []
    savedSignals := signals
    antidelaySeconds := antidelay
    pending := []
    triggerRingCalls := []
    acquiredLocks := []
    releasedLocks := []
    pausedAudio := []
    closedContexts := []
    signalTriggeredCallbacks := [] }

/-- `Set.add` semantics of `setAlreadyRangIds` (lines 54-58): insertion into a
set is idempotent. -/
def insertId (id : String) (ids : List String) : List String :=
  if ids.contains id then ids else ids ++ [id]

/-- `releaseWakeLock` from `wakeLockUtils.ts` lines 16-21: calls
`wakeLock.release()` when the handle is non-null, otherwise does nothing.  The
second argument threads the ghost list of released reservation ids. -/
def releaseWakeLock (wakeLock : Option Nat) (released : List Nat) : List Nat :=
  match wakeLock with
  | none => released
  | some lock => released ++ [lock]

/-- The synchronous prefix of `triggerRing` (lines 30-38, up to the first
`await`): set the ringing flag, record the current ringing signal, and issue
the wake-lock request.  Nothing else happens before the suspension — in
particular `alreadyRangIds` is NOT updated here (the source updates it at
lines 54-58, after both `await`s). -/
def triggerRingStart (signal : Signal) (st : RingState) : RingState :=
  { st with
    isRinging := true
    currentRingingSignal := some signal
    pending := st.pending ++ [Pending.awaitingWakeLock signal]
    triggerRingCalls := st.triggerRingCalls ++ [getSignalId signal] }

/-- One iteration of the interval callback's `forEach` (lines 66-74): fire
`triggerRing` iff `checkSignalTime` holds and the id is not in
`alreadyRangIds`. -/
def tickOnce (now : Nat) (signal : Signal) (st : RingState) : RingState :=
  if checkSignalTime signal st.antidelaySeconds now &&
      !(st.alreadyRangIds.contains (getSignalId signal)) then
    triggerRingStart signal st
  else
    st

/-- One interval callback (lines 65-75): scan every saved signal. -/
def tick (now : Nat) (st : RingState) : RingState :=
  st.savedSignals.foldl (fun acc signal => tickOnce now signal acc) st

/-- The continuation of `triggerRing` resumed when `requestWakeLock` resolves
(lines 38-47, up to the second `await`): `setWakeLock(lock)` stores the
resolved reservation (or `null`) unconditionally — the source consults no
still-ringing flag here — then issues the audio call and suspends again.
`i` selects which in-flight invocation resolves. -/
def resolveWakeLock (i : Nat) (lock : Option Nat) (st : RingState) : RingState :=
  match st.pending.get? i with
  | some (Pending.awaitingWakeLock signal) =>
      { st with
        wakeLock := lock
        acquiredLocks := st.acquiredLocks ++ lock.toList
        pending := st.pending.set i (Pending.awaitingAudio signal) }
  | _ => st

/-- The tail of `triggerRing` resumed when `playCustomRingtone` resolves
(lines 47-58): push a returned media handle into `audioInstancesRef` (a
context handle was already pushed into `audioContextsRef` by the callee; a
caught failure yields neither), then `onSignalTriggered(signal)` and the
`setAlreadyRangIds` insertion. -/
def resolveAudio (i : Nat) (result : AudioResult) (st : RingState) : RingState :=
  match st.pending.get? i with
  | some (Pending.awaitingAudio signal) =>
      let st1 :=
        match result with
        | AudioResult.htmlAudio handle =>
            { st with audioInstances := st.audioInstances ++ [handle] }
        | AudioResult.ctxAudio ctx =>
            { st with audioContexts := st.audioContexts ++ [ctx] }
        | AudioResult.failed => st
      { st1 with
        signalTriggeredCallbacks := st1.signalTriggeredCallbacks ++ [signal]
        alreadyRangIds := insertId (getSignalId signal) st1.alreadyRangIds
        pending := st1.pending.eraseIdx i }
  | _ => st

/-- `handleRingOff` (lines 86-121): pause and rewind every tracked media
element and clear the list; close every tracked audio context and clear the
list; then, only `if (isRinging)`, reset the ringing flag and the current
signal, release the stored wake lock and null it.  (The transient 200 ms
`ringOffButtonPressed` flag and the defensive document-wide audio sweep touch
no modelled state.) -/
def handleRingOff (st : RingState) : RingState :=
  let st1 := { st with
    pausedAudio := st.pausedAudio ++ st.audioInstances
    audioInstances := []
    closedContexts := st.closedContexts ++ st.audioContexts
    audioContexts := [] }
  if st1.isRinging then
    { st1 with
      isRinging := false
      currentRingingSignal := none
      releasedLocks := releaseWakeLock st1.wakeLock st1.releasedLocks
      wakeLock := none }
  else
    st1

/-- `setAntidelaySeconds`: the antidelay configuration setter passed through to
the hook's prop.  It touches nothing else in the ring manager's state. -/
def setAntidelaySeconds (v : Nat) (st : RingState) : RingState :=
  { st with antidelaySeconds := v }

/-- Events delivered by the host's single-threaded event loop: interval ticks
(carrying the clock second the callback observes; consecutive callbacks of a
nominal 1000 ms interval may observe the same second under timer drift),
resolutions of the two `await`s of an in-flight `triggerRing`, the dismiss
button, and an antidelay reconfiguration. -/
inductive Event
  | tick (now : Nat)
  | wakeLockResolved (i : Nat) (lock : Option Nat)
  | audioResolved (i : Nat) (result : AudioResult)
  | ringOff
  | setAntidelay (v : Nat)
deriving DecidableEq, Repr

def applyEvent (st : RingState) (e : Event) : RingState :=
  match e with
  | Event.tick now => tick now st
  | Event.wakeLockResolved i lock => resolveWakeLock i lock st
  | Event.audioResolved i result => resolveAudio i result st
  | Event.ringOff => handleRingOff st
  | Event.setAntidelay v => setAntidelaySeconds v st

/-- A run of the engine: a sequence of event-loop turns. -/
def run (st : RingState) (es : List Event) : RingState :=
  es.foldl applyEvent st

/-! ### Wake controller (`src/src/utils/wakeLockUtils.ts`) -/

/-- Outcome of `navigator.wakeLock.request('screen')` in the host environment:
either a granted sentinel or a thrown rejection. -/
inductive WakeLockRequestResult
  | granted (lock : Nat)
  | denied (err : String)
deriving DecidableEq, Repr

/-- The platform facts `requestWakeLock` consults: whether `'wakeLock' in
navigator`, and how a request would resolve. -/
structure WakeLockEnv where
  supported : Bool
  result : WakeLockRequestResult
deriving DecidableEq, Repr

/-- `navigator.wakeLock.request('screen')`: may throw (modelled as `Except`). -/
def navigatorWakeLockRequest (env : WakeLockEnv) : Except String Nat :=
  match env.result with
  | WakeLockRequestResult.granted lock => Except.ok lock
  | WakeLockRequestResult.denied err => Except.error err

/-- `requestWakeLock` (`wakeLockUtils.ts` lines 2-14): when the platform
supports wake locks it requests one, catching a rejection and returning
`null` (logged); when unsupported it returns `null` directly.  The `Except`
codomain records whether the function itself can throw. -/
def requestWakeLock (env : WakeLockEnv) : Except String (Option Nat) :=
  if env.supported then
    match navigatorWakeLockRequest env with
    | Except.ok lock => Except.ok (some lock)
    | Except.error _ => Except.ok none
  else
    Except.ok none

/-! ### Background keep-alive effect (`src/src/hooks/useSignalTracker.ts`) -/

/-- The effect body at `useSignalTracker.ts` lines 51-70, as a function of the
saved-signal count and the collaborator's `getBackgroundTaskStatus().isActive`
report.  Returns which collaborator calls it makes:
`(callsStart, callsStop)`. -/
def backgroundTaskEffect (savedSignalsLength : Nat) (isActive : Bool) :
    Bool × Bool :=
  if 0 < savedSignalsLength then
    (!isActive, false)
  else
    (false, true)

/-- The effect cleanup at lines 72-78: stop only when the task is active and
the signal list is empty. -/
def backgroundTaskEffectCleanup (savedSignalsLength : Nat) (isActive : Bool) :
    Bool :=
  isActive && decide (savedSignalsLength = 0)

/-! ### Interval effect lifecycle (`useRingManager.ts` lines 62-83) -/

/-- One re-execution of the signal-checking effect, whose dependency array
includes `savedSignals` and `antidelaySeconds`: React first runs the previous
execution's cleanup (which clears `intervalRef.current` when an interval was
armed, lines 77-81), then the body, which arms a fresh `setInterval` iff the
signal list is non-empty (lines 63-75).  Returns the new interval slot and
the list of intervals cleared by the cleanup.  The interval slot is the ring
manager's only recurring timer: the sole other timer it creates is the
one-shot 200 ms `setTimeout` of `handleRingOff` (line 88). -/
def signalCheckEffect (prev : Option Nat) (savedSignalsLength : Nat)
    (fresh : Nat) : Option Nat × List Nat :=
  (if 0 < savedSignalsLength then some fresh else none, prev.toList)

/-! ### Concrete fixtures -/

def sigEURUSD : Signal := { asset := "EURUSD", direction := "up", timestamp := 10 }

def sigGBPUSD : Signal := { asset := "GBPUSD", direction := "down", timestamp := 20 }

/-! ### Helper lemmas -/

theorem tickOnce_alreadyRangIds (now : Nat) (signal : Signal) (st : RingState) :
    (tickOnce now signal st).alreadyRangIds = st.alreadyRangIds := by
  unfold tickOnce triggerRingStart
  split <;> rfl

theorem tickOnce_savedSignals (now : Nat) (signal : Signal) (st : RingState) :
    (tickOnce now signal st).savedSignals = st.savedSignals := by
  unfold tickOnce triggerRingStart
  split <;> rfl

theorem tickOnce_count_of_marked (now : Nat) (signal : Signal) (st : RingState)
    (id : String) (h : st.alreadyRangIds.contains id = true) :
    (tickOnce now signal st).triggerRingCalls.count id
      = st.triggerRingCalls.count id := by
  unfold tickOnce triggerRingStart
  split
  · next hguard =>
    have hne : getSignalId signal ≠ id := by
      intro heq
      rw [Bool.and_eq_true] at hguard
      rw [heq] at hguard
      rw [h] at hguard
      simp at hguard
    have hbeq : (getSignalId signal == id) = false := beq_eq_false_iff_ne.mpr hne
    simp [List.count_append, List.count_singleton, hbeq]
  · rfl

theorem foldl_tickOnce_count_of_marked (now : Nat) (signals : List Signal)
    (st : RingState) (id : String) (h : st.alreadyRangIds.contains id = true) :
    (signals.foldl (fun acc signal => tickOnce now signal acc) st).triggerRingCalls.count id
      = st.triggerRingCalls.count id := by
  induction signals generalizing st with
  | nil => rfl
  | cons s rest ih =>
    show ((rest.foldl (fun acc signal => tickOnce now signal acc) (tickOnce now s st)).triggerRingCalls.count id) = _
    rw [ih (tickOnce now s st) (by rw [tickOnce_alreadyRangIds]; exact h)]
    exact tickOnce_count_of_marked now s st id h

theorem foldl_tickOnce_alreadyRangIds (now : Nat) (signals : List Signal)
    (st : RingState) :
    (signals.foldl (fun acc signal => tickOnce now signal acc) st).alreadyRangIds
      = st.alreadyRangIds := by
  induction signals generalizing st with
  | nil => rfl
  | cons s rest ih =>
    show (rest.foldl (fun acc signal => tickOnce now signal acc) (tickOnce now s st)).alreadyRangIds = _
    rw [ih (tickOnce now s st), tickOnce_alreadyRangIds]

theorem tick_count_of_marked (now : Nat) (st : RingState) (id : String)
    (h : st.alreadyRangIds.contains id = true) :
    (tick now st).triggerRingCalls.count id = st.triggerRingCalls.count id :=
  foldl_tickOnce_count_of_marked now st.savedSignals st id h

theorem tick_alreadyRangIds (now : Nat) (st : RingState) :
    (tick now st).alreadyRangIds = st.alreadyRangIds :=
  foldl_tickOnce_alreadyRangIds now st.savedSignals st

theorem insertId_contains_of_contains (x id : String) (ids : List String)
    (h : ids.contains id = true) : (insertId x ids).contains id = true := by
  unfold insertId
  split
  · exact h
  · rw [List.contains, List.elem_iff] at h ⊢
    exact List.mem_append_left _ h

theorem applyEvent_contains_of_marked (st : RingState) (e : Event) (id : String)
    (h : st.alreadyRangIds.contains id = true) :
    (applyEvent st e).alreadyRangIds.contains id = true := by
  cases e with
  | tick now => rw [applyEvent, tick_alreadyRangIds]; exact h
  | wakeLockResolved i lock =>
    rw [applyEvent]
    unfold resolveWakeLock
    cases hp : st.pending.get? i with
    | none => exact h
    | some p => cases p <;> simp [hp] <;> exact List.elem_iff.mp h
  | audioResolved i result =>
    rw [applyEvent]
    unfold resolveAudio
    cases hp : st.pending.get? i with
    | none => exact h
    | some p =>
      cases p with
      | awaitingWakeLock s => simp [hp]; exact List.elem_iff.mp h
      | awaitingAudio s =>
        cases result <;> simp [hp] <;>
          exact List.elem_iff.mp (insertId_contains_of_contains _ id _ h)
  | ringOff =>
    rw [applyEvent]
    unfold handleRingOff
    dsimp only
    split <;> exact h
  | setAntidelay v => exact h

theorem applyEvent_count_of_marked (st : RingState) (e : Event) (id : String)
    (h : st.alreadyRangIds.contains id = true) :
    (applyEvent st e).triggerRingCalls.count id = st.triggerRingCalls.count id := by
  cases e with
  | tick now => exact tick_count_of_marked now st id h
  | wakeLockResolved i lock =>
    rw [applyEvent]
    unfold resolveWakeLock
    cases hp : st.pending.get? i with
    | none => rfl
    | some p => cases p <;> simp [hp]
  | audioResolved i result =>
    rw [applyEvent]
    unfold resolveAudio
    cases hp : st.pending.get? i with
    | none => rfl
    | some p => cases p <;> cases result <;> simp [hp]
  | ringOff =>
    rw [applyEvent]
    unfold handleRingOff
    dsimp only
    split <;> rfl
  | setAntidelay v => rfl

/-! ### Concrete fixtures for witnesses and counterexamples -/

/-- A state whose deduplication registry already holds `sigEURUSD`'s id. -/
def ringStateMarked : RingState :=
  { initialState [sigEURUSD] 0 with alreadyRangIds := [getSignalId sigEURUSD] }

/-- A ringing state holding a wake lock and tracked audio resources. -/
def ringStateBusy : RingState :=
  { initialState [sigEURUSD] 0 with
      isRinging := true
      currentRingingSignal := some sigEURUSD
      wakeLock := some 7
      audioInstances := [1, 2]
      audioContexts := [3] }

/-! ### Claims -/

/-- C1: the claim states that the transition to RINGING is fully synchronous:
the identity is recorded in `alreadyRangIds` AND the ringing flag is set
before any asynchronous resource is awaited, so that a slow acquisition
cannot cause a duplicate fire on the next tick.  The code violates this:
after one tick the ringing flag is `true` and the wake-lock await is pending,
but the registry is still empty (the source inserts the id only at lines
54-58, AFTER `await requestWakeLock()` and `await playCustomRingtone(...)`),
so a second interval callback that observes the same eligible second before
the continuation runs calls `triggerRing` again for the same identity. -/
theorem triggerRing_marks_only_after_awaits_duplicate_fire :
    (run (initialState [sigEURUSD] 0) [Event.tick 10]).isRinging = true
    ∧ (run (initialState [sigEURUSD] 0) [Event.tick 10]).alreadyRangIds = []
    ∧ (run (initialState [sigEURUSD] 0) [Event.tick 10]).pending
        = [Pending.awaitingWakeLock sigEURUSD]
    ∧ (run (initialState [sigEURUSD] 0) [Event.tick 10, Event.tick 10]).triggerRingCalls
        = [getSignalId sigEURUSD, getSignalId sigEURUSD] := by
  decide

/-- C2: once a SignalIdentity is in the deduplication registry, no run of
further event-loop turns (in particular no further poll tick, at any clock
value) adds another `triggerRing` call for that identity: the count of that
id among the logged `triggerRing` invocations stays constant. -/
theorem marked_id_never_triggers_again (st : RingState) (es : List Event)
    (id : String) (h : st.alreadyRangIds.contains id = true) :
    (run st es).triggerRingCalls.count id = st.triggerRingCalls.count id := by
  induction es generalizing st with
  | nil => rfl
  | cons e rest ih =>
    show (run (applyEvent st e) rest).triggerRingCalls.count id = _
    rw [ih (applyEvent st e) (applyEvent_contains_of_marked st e id h),
        applyEvent_count_of_marked st e id h]

theorem marked_id_never_triggers_again_witness :
    ringStateMarked.alreadyRangIds.contains (getSignalId sigEURUSD) = true
    ∧ (run ringStateMarked [Event.tick 10, Event.tick 11]).triggerRingCalls.count
        (getSignalId sigEURUSD)
      = ringStateMarked.triggerRingCalls.count (getSignalId sigEURUSD) :=
  ⟨by decide,
   marked_id_never_triggers_again ringStateMarked [Event.tick 10, Event.tick 11]
     (getSignalId sigEURUSD) (by decide)⟩

/-- C3 counterexample: the claim says that after ANY invocation of
`handleRingOff` the stored wake-lock reservation is null, regardless of the
state it was called in.  Concretely falsified: trigger a signal, dismiss
while the wake-lock request is still in flight, let the request resolve
(the source stores it via `setWakeLock(lock)` with no still-ringing check),
then dismiss again — the final dismiss leaves the reservation stored,
because lines 114-120 release the lock only inside `if (isRinging)`. -/
theorem handleRingOff_leaves_late_wakeLock_stored :
    (run (initialState [sigEURUSD] 0)
      [Event.tick 10, Event.ringOff, Event.wakeLockResolved 0 (some 5),
       Event.ringOff]).wakeLock = some 5 := by
  decide

/-- C3 amended: after any invocation of `handleRingOff` the tracked audio
collections are empty (every tracked media element paused/rewound, every
tracked context closed), and — when the ringing flag was set at the time of
the call — the wake-lock reservation is null and the flag is cleared;
calling dismiss twice in a row is safe.  (A reservation stored while not
ringing, by a wake-lock resolution arriving after dismissal, is not
cleared: that is the only divergence from the claim as stated.) -/
theorem handleRingOff_clears_audio_and_ringing_wakeLock (st : RingState) :
    (handleRingOff st).audioInstances = []
    ∧ (handleRingOff st).audioContexts = []
    ∧ (handleRingOff st).pausedAudio = st.pausedAudio ++ st.audioInstances
    ∧ (handleRingOff st).closedContexts = st.closedContexts ++ st.audioContexts
    ∧ (st.isRinging = true →
        (handleRingOff st).wakeLock = none ∧ (handleRingOff st).isRinging = false)
    ∧ (handleRingOff (handleRingOff st)).audioInstances = []
    ∧ (handleRingOff (handleRingOff st)).audioContexts = []
    ∧ (st.isRinging = true → (handleRingOff (handleRingOff st)).wakeLock = none) := by
  cases hr : st.isRinging <;>
    simp [handleRingOff, hr]

theorem handleRingOff_clears_audio_and_ringing_wakeLock_witness :
    ringStateBusy.isRinging = true
    ∧ (handleRingOff ringStateBusy).audioInstances = []
    ∧ (handleRingOff ringStateBusy).wakeLock = none
    ∧ (handleRingOff (handleRingOff ringStateBusy)).wakeLock = none := by
  obtain ⟨h1, h2, h3, h4, h5, h6, h7, h8⟩ :=
    handleRingOff_clears_audio_and_ringing_wakeLock ringStateBusy
  exact ⟨by decide, h1, (h5 (by decide)).1, h8 (by decide)⟩

/-- C4: the claim states that a wake-lock reservation obtained after
dismissal is immediately released, both the dismiss handler and the async
completion consulting a single still-ringing flag before taking ownership
effects.  The code does neither: the completion (`setWakeLock(lock)`, line
39) stores the late reservation without consulting `isRinging`, and the
dismiss handler releases only when `isRinging` is true, so in the run below
reservation 9 is acquired after dismissal, stored, and never released —
`releasedLocks` stays empty even after a further dismiss. -/
theorem late_wakeLock_resolution_never_released :
    (run (initialState [sigEURUSD] 0)
      [Event.tick 10, Event.ringOff, Event.wakeLockResolved 0 (some 9)]).isRinging = false
    ∧ (run (initialState [sigEURUSD] 0)
      [Event.tick 10, Event.ringOff, Event.wakeLockResolved 0 (some 9)]).wakeLock = some 9
    ∧ (run (initialState [sigEURUSD] 0)
      [Event.tick 10, Event.ringOff, Event.wakeLockResolved 0 (some 9),
       Event.ringOff]).acquiredLocks = [9]
    ∧ (run (initialState [sigEURUSD] 0)
      [Event.tick 10, Event.ringOff, Event.wakeLockResolved 0 (some 9),
       Event.ringOff]).releasedLocks = [] := by
  decide

/-- C5: if wake-lock acquisition yields any outcome `o` (including denial,
i.e. `none`) and the audio start fails with a caught resource error, the
RINGING transition still completes: the ringing flag is true, the fired
signal is displayed, its identity ends up in the deduplication registry, and
a subsequent dismiss still clears all state cleanly. -/
theorem failed_resources_still_ring_and_dismiss (s : Signal) (d now : Nat)
    (o : Option Nat) (h : checkSignalTime s d now = true) :
    (run (initialState [s] d)
      [Event.tick now, Event.wakeLockResolved 0 o,
       Event.audioResolved 0 AudioResult.failed]).isRinging = true
    ∧ (run (initialState [s] d)
      [Event.tick now, Event.wakeLockResolved 0 o,
       Event.audioResolved 0 AudioResult.failed]).currentRingingSignal = some s
    ∧ (run (initialState [s] d)
      [Event.tick now, Event.wakeLockResolved 0 o,
       Event.audioResolved 0 AudioResult.failed]).alreadyRangIds.contains
        (getSignalId s) = true
    ∧ (handleRingOff (run (initialState [s] d)
      [Event.tick now, Event.wakeLockResolved 0 o,
       Event.audioResolved 0 AudioResult.failed])).isRinging = false
    ∧ (handleRingOff (run (initialState [s] d)
      [Event.tick now, Event.wakeLockResolved 0 o,
       Event.audioResolved 0 AudioResult.failed])).audioInstances = []
    ∧ (handleRingOff (run (initialState [s] d)
      [Event.tick now, Event.wakeLockResolved 0 o,
       Event.audioResolved 0 AudioResult.failed])).audioContexts = []
    ∧ (handleRingOff (run (initialState [s] d)
      [Event.tick now, Event.wakeLockResolved 0 o,
       Event.audioResolved 0 AudioResult.failed])).wakeLock = none := by
  have hrun : run (initialState [s] d)
      [Event.tick now, Event.wakeLockResolved 0 o,
       Event.audioResolved 0 AudioResult.failed]
    = { initialState [s] d with
          isRinging := true
          currentRingingSignal := some s
          wakeLock := o
          alreadyRangIds := [getSignalId s]
          acquiredLocks := o.toList
          triggerRingCalls := [getSignalId s]
          signalTriggeredCallbacks := [s] } := by
    simp [run, applyEvent, tick, tickOnce, initialState, h, triggerRingStart,
      resolveWakeLock, resolveAudio, insertId]
  rw [hrun]
  refine ⟨rfl, rfl, by simp [List.contains], ?_, ?_, ?_, ?_⟩ <;>
    simp [handleRingOff, initialState]

theorem failed_resources_still_ring_and_dismiss_witness :
    checkSignalTime sigEURUSD 0 10 = true
    ∧ ((run (initialState [sigEURUSD] 0)
      [Event.tick 10, Event.wakeLockResolved 0 none,
       Event.audioResolved 0 AudioResult.failed]).isRinging = true
    ∧ (run (initialState [sigEURUSD] 0)
      [Event.tick 10, Event.wakeLockResolved 0 none,
       Event.audioResolved 0 AudioResult.failed]).currentRingingSignal = some sigEURUSD
    ∧ (run (initialState [sigEURUSD] 0)
      [Event.tick 10, Event.wakeLockResolved 0 none,
       Event.audioResolved 0 AudioResult.failed]).alreadyRangIds.contains
        (getSignalId sigEURUSD) = true
    ∧ (handleRingOff (run (initialState [sigEURUSD] 0)
      [Event.tick 10, Event.wakeLockResolved 0 none,
       Event.audioResolved 0 AudioResult.failed])).isRinging = false
    ∧ (handleRingOff (run (initialState [sigEURUSD] 0)
      [Event.tick 10, Event.wakeLockResolved 0 none,
       Event.audioResolved 0 AudioResult.failed])).audioInstances = []
    ∧ (handleRingOff (run (initialState [sigEURUSD] 0)
      [Event.tick 10, Event.wakeLockResolved 0 none,
       Event.audioResolved 0 AudioResult.failed])).audioContexts = []
    ∧ (handleRingOff (run (initialState [sigEURUSD] 0)
      [Event.tick 10, Event.wakeLockResolved 0 none,
       Event.audioResolved 0 AudioResult.failed])).wakeLock = none) :=
  ⟨by decide, failed_resources_still_ring_and_dismiss sigEURUSD 0 10 none (by decide)⟩

/-- C6: `requestWakeLock` never throws — for every environment it returns
normally (`Except.ok`); an unsupported platform and a denied request both
yield `null`; and `releaseWakeLock` is a no-op when passed `null`. -/
theorem requestWakeLock_total_and_release_noop_on_null (env : WakeLockEnv)
    (released : List Nat) :
    (∃ result, requestWakeLock env = Except.ok result)
    ∧ (env.supported = false → requestWakeLock env = Except.ok none)
    ∧ (∀ err, requestWakeLock
        { supported := true, result := WakeLockRequestResult.denied err }
        = Except.ok none)
    ∧ releaseWakeLock none released = released := by
  refine ⟨?_, ?_, ?_, rfl⟩
  · cases henv : env.supported with
    | false => exact ⟨none, by simp [requestWakeLock, henv]⟩
    | true =>
      cases hres : env.result with
      | granted lock =>
        exact ⟨some lock,
          by simp [requestWakeLock, navigatorWakeLockRequest, henv, hres]⟩
      | denied err =>
        exact ⟨none,
          by simp [requestWakeLock, navigatorWakeLockRequest, henv, hres]⟩
  · intro hsup
    simp [requestWakeLock, hsup]
  · intro err
    simp [requestWakeLock, navigatorWakeLockRequest]

theorem requestWakeLock_total_and_release_noop_on_null_witness :
    requestWakeLock { supported := false, result := WakeLockRequestResult.granted 0 }
      = Except.ok none
    ∧ requestWakeLock { supported := true, result := WakeLockRequestResult.denied "NotAllowedError" }
      = Except.ok none
    ∧ releaseWakeLock none [4] = [4] := by
  obtain ⟨h1, h2, h3, h4⟩ := requestWakeLock_total_and_release_noop_on_null
    { supported := false, result := WakeLockRequestResult.granted 0 } [4]
  exact ⟨h2 rfl, h3 "NotAllowedError", h4⟩

/-- C7: the keep-alive effect calls `start()` exactly when the signal list is
non-empty and the collaborator reports inactive, never when it is already
active, and calls `stop()` exactly when the list is empty (the cleanup stops
only an active task on an empty list). -/
theorem backgroundTaskEffect_start_stop_discipline (n : Nat) (active : Bool) :
    (backgroundTaskEffect n active).1 = (decide (0 < n) && !active)
    ∧ (active = true → (backgroundTaskEffect n active).1 = false)
    ∧ (backgroundTaskEffect 0 active).2 = true
    ∧ (0 < n → (backgroundTaskEffect n active).2 = false)
    ∧ backgroundTaskEffectCleanup n active = (active && decide (n = 0)) := by
  cases Nat.eq_zero_or_pos n with
  | inl h0 =>
    subst h0
    cases active <;> simp [backgroundTaskEffect, backgroundTaskEffectCleanup]
  | inr hpos =>
    cases active <;>
      simp [backgroundTaskEffect, backgroundTaskEffectCleanup, hpos, hpos.ne']

theorem backgroundTaskEffect_start_stop_discipline_witness :
    (backgroundTaskEffect 3 true).1 = false
    ∧ (backgroundTaskEffect 3 true).2 = false
    ∧ (backgroundTaskEffect 0 true).2 = true := by
  obtain ⟨h1, h2, h3, h4, h5⟩ := backgroundTaskEffect_start_stop_discipline 3 true
  exact ⟨h2 rfl, h4 (by decide), h3⟩

/-- C8: one re-execution of the signal-checking effect clears whatever
interval the previous execution armed (no orphaned timer) and arms a fresh
interval iff the signal list is non-empty; with an empty list the interval
slot — the manager's only recurring timer — is left empty. -/
theorem signalCheckEffect_rearm_and_cancel (prev : Option Nat) (n fresh : Nat) :
    (signalCheckEffect prev 0 fresh).1 = none
    ∧ (signalCheckEffect prev n fresh).2 = prev.toList
    ∧ (0 < n → (signalCheckEffect prev n fresh).1 = some fresh) := by
  refine ⟨by simp [signalCheckEffect], rfl, ?_⟩
  intro h
  simp [signalCheckEffect, h]

theorem signalCheckEffect_rearm_and_cancel_witness :
    (signalCheckEffect (some 11) 0 12).1 = none
    ∧ (signalCheckEffect (some 11) 2 12).2 = [11]
    ∧ (signalCheckEffect (some 11) 2 12).1 = some 12 := by
  obtain ⟨h1, h2, h3⟩ := signalCheckEffect_rearm_and_cancel (some 11) 2 12
  exact ⟨h1, h2, h3 (by decide)⟩

/-- C9: reconfiguring `antidelaySeconds` leaves the deduplication registry
unchanged, and a tick after the change (at any clock value, hence under the
new eligibility window) still produces no `triggerRing` call for an
already-marked identity. -/
theorem setAntidelay_preserves_alreadyRangIds (st : RingState) (v : Nat) :
    (applyEvent st (Event.setAntidelay v)).alreadyRangIds = st.alreadyRangIds
    ∧ ∀ id now, st.alreadyRangIds.contains id = true →
        (tick now (applyEvent st (Event.setAntidelay v))).triggerRingCalls.count id
          = st.triggerRingCalls.count id := by
  refine ⟨rfl, ?_⟩
  intro id now h
  have h2 : (applyEvent st (Event.setAntidelay v)).alreadyRangIds.contains id = true := h
  rw [tick_count_of_marked now (applyEvent st (Event.setAntidelay v)) id h2]
  rfl

theorem setAntidelay_preserves_alreadyRangIds_witness :
    (applyEvent ringStateMarked (Event.setAntidelay 30)).alreadyRangIds
      = ringStateMarked.alreadyRangIds
    ∧ (tick 10 (applyEvent ringStateMarked (Event.setAntidelay 30))).triggerRingCalls.count
        (getSignalId sigEURUSD)
      = ringStateMarked.triggerRingCalls.count (getSignalId sigEURUSD) := by
  obtain ⟨h1, h2⟩ := setAntidelay_preserves_alreadyRangIds ringStateMarked 30
  exact ⟨h1, h2 (getSignalId sigEURUSD) 10 (by decide)⟩

/-- C10: in a run where a second signal triggers while the machine is already
ringing, the wake-lock resolution of the second trigger overwrites the
stored reservation (releasing nothing), and the subsequent dismiss releases
only the most recently stored reservation — the first reservation (id 1) is
acquired but never released. -/
theorem second_trigger_overwrites_wakeLock_and_leaks :
    (run (initialState [sigEURUSD, sigGBPUSD] 0)
      [Event.tick 10, Event.wakeLockResolved 0 (some 1),
       Event.audioResolved 0 (AudioResult.htmlAudio 100)]).isRinging = true
    ∧ (run (initialState [sigEURUSD, sigGBPUSD] 0)
      [Event.tick 10, Event.wakeLockResolved 0 (some 1),
       Event.audioResolved 0 (AudioResult.htmlAudio 100),
       Event.tick 20, Event.wakeLockResolved 0 (some 2)]).wakeLock = some 2
    ∧ (run (initialState [sigEURUSD, sigGBPUSD] 0)
      [Event.tick 10, Event.wakeLockResolved 0 (some 1),
       Event.audioResolved 0 (AudioResult.htmlAudio 100),
       Event.tick 20, Event.wakeLockResolved 0 (some 2)]).releasedLocks = []
    ∧ (run (initialState [sigEURUSD, sigGBPUSD] 0)
      [Event.tick 10, Event.wakeLockResolved 0 (some 1),
       Event.audioResolved 0 (AudioResult.htmlAudio 100),
       Event.tick 20, Event.wakeLockResolved 0 (some 2),
       Event.audioResolved 0 (AudioResult.htmlAudio 101),
       Event.ringOff]).acquiredLocks = [1, 2]
    ∧ (run (initialState [sigEURUSD, sigGBPUSD] 0)
      [Event.tick 10, Event.wakeLockResolved 0 (some 1),
       Event.audioResolved 0 (AudioResult.htmlAudio 100),
       Event.tick 20, Event.wakeLockResolved 0 (some 2),
       Event.audioResolved 0 (AudioResult.htmlAudio 101),
       Event.ringOff]).releasedLocks = [2]
    ∧ (run (initialState [sigEURUSD, sigGBPUSD] 0)
      [Event.tick 10, Event.wakeLockResolved 0 (some 1),
       Event.audioResolved 0 (AudioResult.htmlAudio 100),
       Event.tick 20, Event.wakeLockResolved 0 (some 2),
       Event.audioResolved 0 (AudioResult.htmlAudio 101),
       Event.ringOff]).wakeLock = none := by
  decide
